import Mathlib

/-!
Shallow embedding of the Crate-and-Crypt game server core
(src/backend/src/main.rs): the room registry (`SessionState`), the
per-connection session dispatch (`GameSession.handle_game_message`), the
broadcast fan-out (`GameSession.broadcast_to_room`), the websocket text-frame
handler, and the disconnect/heartbeat cleanup hooks.

Modelling conventions:
* `Instant` is a `Nat` tick; every operation that reads `Instant::now()`
  takes the current tick `now` as an explicit argument.
* `HashMap` values are modelled as functions `String → Option β`; the code
  only ever inserts, removes and looks up keys (it never iterates a map), so
  this is extensionally faithful.
* `rand::thread_rng().gen_range(1000..10000)` is modelled by an oracle: a
  list of naturals consumed one per draw, each draw `n` yielding
  `1000 + n % 9000` (exactly the range the generator produces).  The retry
  loop in `create_room` recurses down the oracle and returns `none` when the
  oracle is exhausted (the Rust code would keep drawing).
* `f32` payload fields are carried as opaque bit patterns (`Nat`); the server
  never interprets them, it forwards them verbatim.
* Messages sent to the session's own websocket (`ctx.text`) are collected in
  `DispatchResult.replies`; messages pushed to other sessions' mailboxes
  (`addr.do_send`) are collected in `DispatchResult.deliveries`.  The Join
  reply is serialized, re-parsed and given an extra `players_count` field in
  the code; it is modelled by the dedicated `OutMsg.joinReply` constructor.
* The connections map (`AppState.connections`) only matters through which
  player ids have a delivery handle, so it is modelled as the list `conns`
  of player ids with a registered handle.
-/

/-- Stand-in for `f32`: the raw bit pattern.  The server never interprets
float payloads, it relays them verbatim. -/
abbrev F32 := Nat

/-- `Position` (main.rs lines 32–38). -/
structure Position where
  x : F32
  y : F32
  z : F32
  rotation : Option F32
deriving DecidableEq

/-- `Entity` (main.rs lines 41–47). -/
structure Entity where
  id : String
  entity_type : String
  position : Position
  state : Option String
deriving DecidableEq

/-- `GameMessage` (main.rs lines 18–29). -/
inductive GameMessage where
  | Join (player_id : Option String) (room_id : Option String) (create_room : Option Bool)
  | Leave (player_id : String)
  | Chat (player_id : String) (text : String)
  | PlayerUpdate (player_id : String) (position : Position) (action : Option String)
  | WorldUpdate (entities : List Entity)
  | Error (message : String)
  | Ping (time : Nat)
  | Pong (time : Nat)
deriving DecidableEq

/-- `GameRoom` (main.rs lines 50–55). -/
structure GameRoom where
  id : String
  players : List String
  created_at : Nat
  last_activity : Nat
deriving DecidableEq

/-- `SessionState` (main.rs lines 58–61): the room registry and the reverse
player-to-room map, modelled as functional maps. -/
structure SessionState where
  rooms : String → Option GameRoom
  player_to_room : String → Option String

/-- Point update of a functional map: models `HashMap::insert` (with a
`some` value) and `HashMap::remove` (with `none`). -/
def setMap {β : Type} (m : String → Option β) (k : String) (v : Option β) :
    String → Option β :=
  fun q => if q = k then v else m q

/-- `SessionState::new` (main.rs lines 64–69). -/
def SessionState.new : SessionState :=
  { rooms := fun _ => none, player_to_room := fun _ => none }

/-- The id produced by one draw `n` of the generator:
`format!("{:04}", gen_range(1000..10000))`.  For every value in
`1000..=9999` the `{:04}` padding is a no-op, so the id is the plain
decimal string. -/
def genRoomId (n : Nat) : String := toString (1000 + n % 9000)

/-- `SessionState::create_room` (main.rs lines 71–91): draw an id; if it
already names a room, retry with the next draw; otherwise insert a room with
an empty player list and return the id.  `none` means the oracle ran dry. -/
def SessionState.create_room (s : SessionState) (now : Nat) :
    List Nat → Option (String × SessionState)
  | [] => none
  | n :: rest =>
    let room_id := genRoomId n
    if (s.rooms room_id).isSome then
      s.create_room now rest
    else
      let room : GameRoom :=
        { id := room_id, players := [], created_at := now, last_activity := now }
      some (room_id, { s with rooms := setMap s.rooms room_id (some room) })

/-- `SessionState::join_room` (main.rs lines 93–106): if the room exists and
the player is not already in its list, append the player, bump
`last_activity`, record the reverse mapping and return `true`; in every
other case (missing room, or player already a member) return `false` and
leave the state untouched. -/
def SessionState.join_room (s : SessionState) (now : Nat)
    (room_id player_id : String) : SessionState × Bool :=
  match s.rooms room_id with
  | some room =>
    if player_id ∈ room.players then (s, false)
    else
      let room' : GameRoom :=
        { room with players := room.players ++ [player_id], last_activity := now }
      ({ rooms := setMap s.rooms room_id (some room'),
         player_to_room := setMap s.player_to_room player_id (some room_id) },
       true)
  | none => (s, false)

/-- `SessionState::leave_room` (main.rs lines 108–123): remove the reverse
mapping; if it existed, drop the player from that room's list and bump
`last_activity` (the "room is now empty" case only logs, it does not evict
the room). -/
def SessionState.leave_room (s : SessionState) (now : Nat)
    (player_id : String) : SessionState :=
  match s.player_to_room player_id with
  | none => s
  | some room_id =>
    let ptr := setMap s.player_to_room player_id none
    match s.rooms room_id with
    | none => { s with player_to_room := ptr }
    | some room =>
      let room' : GameRoom :=
        { room with players := room.players.filter (fun q => q != player_id),
                    last_activity := now }
      { rooms := setMap s.rooms room_id (some room'), player_to_room := ptr }

/-- `SessionState::get_player_room` (main.rs lines 125–127). -/
def SessionState.get_player_room (s : SessionState) (player_id : String) :
    Option String :=
  s.player_to_room player_id

/-- `HEARTBEAT_INTERVAL` (main.rs line 14), in seconds. -/
def HEARTBEAT_INTERVAL : Nat := 5

/-- `CLIENT_TIMEOUT` (main.rs line 15), in seconds. -/
def CLIENT_TIMEOUT : Nat := 10

/-- One message sent to the session's own websocket.  `joinReply` models the
Join response after the code splices the `players_count` field into the
serialized payload (main.rs lines 270–299). -/
inductive OutMsg where
  | plain (m : GameMessage)
  | joinReply (player_id : String) (room_id : String) (players_count : Nat)
deriving DecidableEq

/-- Effect of one dispatch: the registry afterwards, the messages written to
the sender's own socket, and the messages pushed to other sessions. -/
structure DispatchResult where
  state : SessionState
  replies : List OutMsg
  deliveries : List (String × GameMessage)

/-- `GameSession::broadcast_to_room` (main.rs lines 362–382): look the room
up, then push the message to every listed player other than the sender that
has a registered connection handle. -/
def GameSession.broadcast_to_room (sid : String) (conns : List String)
    (s : SessionState) (room_id : String) (message : GameMessage) :
    List (String × GameMessage) :=
  match s.rooms room_id with
  | none => []
  | some room =>
    (room.players.filter (fun p => p != sid && conns.contains p)).map
      (fun p => (p, message))

/-- The `players_count` the Join reply carries (main.rs lines 281–284):
the room's member count, or `1` when the room is unexpectedly missing. -/
def joinPlayersCount (s : SessionState) (room_id : String) : Nat :=
  match s.rooms room_id with
  | some room => room.players.length
  | none => 1

/-- The Join reply (main.rs lines 270–299): a Join message with the
session's id and the resolved room id, with `players_count` spliced in. -/
def mkJoinReply (sid room_id : String) (s : SessionState) : DispatchResult :=
  { state := s,
    replies := [OutMsg.joinReply sid room_id (joinPlayersCount s room_id)],
    deliveries := [] }

/-- The Join arm of `GameSession::handle_game_message`
(main.rs lines 232–300): `create_room: true` creates and joins a fresh room
(ignoring any supplied room id); a supplied room id is joined if
`join_room` succeeds, otherwise a fresh room is created and joined (the
Rust code continues with the same, unmodified registry after the failed
join — here the state returned by the failed `join_room`); with no room id
a fresh room is created and joined.  The reply carries the resolved room
id and its member count.  `none` only when the id oracle ran dry. -/
def joinDispatch (sid : String) (now : Nat) (oracle : List Nat)
    (s : SessionState) (room_id : Option String) (create_room : Option Bool) :
    Option DispatchResult :=
  if create_room.getD false then
    match s.create_room now oracle with
    | none => none
    | some (nrid, s1) => some (mkJoinReply sid nrid (s1.join_room now nrid sid).1)
  else
    match room_id with
    | some rrid =>
      match s.join_room now rrid sid with
      | (s1, true) => some (mkJoinReply sid rrid s1)
      | (s1, false) =>
        match s1.create_room now oracle with
        | none => none
        | some (nrid, s2) => some (mkJoinReply sid nrid (s2.join_room now nrid sid).1)
    | none =>
      match s.create_room now oracle with
      | none => none
      | some (nrid, s1) => some (mkJoinReply sid nrid (s1.join_room now nrid sid).1)

/-- `GameSession::handle_game_message` (main.rs lines 230–346).  `sid` is
the session's own id (`self.id`), `conns` the set of registered connection
handles, `oracle` the random draws available to `create_room`.  The result
is `none` only when a Join needed a fresh room id and the oracle ran dry. -/
def GameSession.handle_game_message (sid : String) (now : Nat)
    (oracle : List Nat) (conns : List String) (s : SessionState) :
    GameMessage → Option DispatchResult
  | .Join _ room_id create_room => joinDispatch sid now oracle s room_id create_room
  | .Leave _ => some { state := s, replies := [], deliveries := [] }
  | .Chat player_id text =>
    some { state := s, replies := [OutMsg.plain (.Chat player_id text)],
           deliveries := [] }
  | .Ping time =>
    some { state := s, replies := [OutMsg.plain (.Pong time)], deliveries := [] }
  | .PlayerUpdate _ position action =>
    match s.get_player_room sid with
    | some room_id =>
      some { state := s, replies := [],
             deliveries := GameSession.broadcast_to_room sid conns s room_id
               (.PlayerUpdate sid position action) }
    | none => some { state := s, replies := [], deliveries := [] }
  | _ => some { state := s, replies := [], deliveries := [] }

/-- The `ws::Message::Text` arm of `StreamHandler::handle`
(main.rs lines 194–213), after JSON decoding: a decode failure is answered
with an `Error` message built from the decoder's description and the
session keeps running; a decoded message goes to `handle_game_message`.
The second component records whether the session stopped (the Text arm
never calls `ctx.stop()`). -/
def GameSession.handleTextFrame (sid : String) (now : Nat) (oracle : List Nat)
    (conns : List String) (s : SessionState) :
    Except String GameMessage → Option (DispatchResult × Bool)
  | .error e =>
    some ({ state := s,
            replies := [OutMsg.plain (.Error ("Invalid message format: " ++ e))],
            deliveries := [] }, false)
  | .ok m =>
    (GameSession.handle_game_message sid now oracle conns s m).map
      (fun r => (r, false))

/-- `GameSession::stopped` (main.rs lines 174–177): the disconnect hook.  It
only logs ("Handle cleanup on disconnect - we'll add session management
later"); it neither removes the connections entry nor calls `leave_room`,
so shared state is returned unchanged. -/
def GameSession.stopped_cleanup (s : SessionState) (conns : List String) :
    SessionState × List String :=
  (s, conns)

/-- One tick of `GameSession::heartbeat` (main.rs lines 349–359): `true`
means the client timed out (`now - hb > CLIENT_TIMEOUT`, saturating like
`Instant` subtraction) and the session stops. -/
def GameSession.heartbeat_timed_out (now hb : Nat) : Bool :=
  decide (CLIENT_TIMEOUT < now - hb)

/-- One registry operation, for reasoning about call sequences. -/
inductive Op where
  | create (now : Nat) (oracle : List Nat)
  | join (now : Nat) (room_id player_id : String)
  | leave (now : Nat) (player_id : String)

/-- Apply one registry operation (a failed `create_room` leaves the state
unchanged, like the Rust retry loop before it succeeds). -/
def applyOp (s : SessionState) : Op → SessionState
  | .create now oracle =>
    match s.create_room now oracle with
    | some (_, s') => s'
    | none => s
  | .join now room_id player_id => (s.join_room now room_id player_id).1
  | .leave now player_id => s.leave_room now player_id

/-- Run a sequence of registry operations from a state. -/
def runOps (s : SessionState) (ops : List Op) : SessionState :=
  ops.foldl applyOp s

/-- A sequence of `create_room` calls, each with its own oracle; returns the
created ids in order. -/
def createMany (s : SessionState) (now : Nat) :
    List (List Nat) → Option (List String × SessionState)
  | [] => some ([], s)
  | o :: os =>
    match s.create_room now o with
    | none => none
    | some (rid, s') =>
      match createMany s' now os with
      | none => none
      | some (rids, s'') => some (rid :: rids, s'')

/-- The direction of the mapping invariant the code does maintain: every
player the reverse map knows about is a member of the room it maps to. -/
def mappedConsistent (s : SessionState) : Prop :=
  ∀ p r, s.player_to_room p = some r →
    ∃ room, s.rooms r = some room ∧ p ∈ room.players

/-! ### Helper lemmas about the registry operations -/

theorem setMap_self {β : Type} (m : String → Option β) (k : String) (v : Option β) :
    setMap m k v k = v := by
  simp [setMap]

theorem setMap_ne {β : Type} (m : String → Option β) (k : String) (v : Option β)
    {q : String} (h : q ≠ k) : setMap m k v q = m q := by
  simp [setMap, h]

theorem join_room_not_found {s : SessionState} {now : Nat} {rid pid : String}
    (h : s.rooms rid = none) : s.join_room now rid pid = (s, false) := by
  simp [SessionState.join_room, h]

theorem join_room_already {s : SessionState} {now : Nat} {rid pid : String}
    {room : GameRoom} (h : s.rooms rid = some room) (hm : pid ∈ room.players) :
    s.join_room now rid pid = (s, false) := by
  simp [SessionState.join_room, h, hm]

theorem join_room_adds {s : SessionState} {now : Nat} {rid pid : String}
    {room : GameRoom} (h : s.rooms rid = some room) (hm : pid ∉ room.players) :
    s.join_room now rid pid =
      ({ rooms := setMap s.rooms rid
           (some { room with players := room.players ++ [pid], last_activity := now }),
         player_to_room := setMap s.player_to_room pid (some rid) }, true) := by
  simp [SessionState.join_room, h, hm]

theorem join_room_false_state {s : SessionState} {now : Nat} {rid pid : String}
    (h : (s.join_room now rid pid).2 = false) : (s.join_room now rid pid).1 = s := by
  cases hr : s.rooms rid with
  | none => rw [join_room_not_found hr]
  | some room =>
    by_cases hm : pid ∈ room.players
    · rw [join_room_already hr hm]
    · rw [join_room_adds hr hm] at h
      simp at h

/-- Everything `create_room` guarantees on success: the id is a 4-digit
decimal, it named no existing room, the new room is empty, and nothing else
changes. -/
theorem create_room_sound {now : Nat} :
    ∀ {oracle : List Nat} {s : SessionState} {rid : String} {s' : SessionState},
    s.create_room now oracle = some (rid, s') →
    (∃ m, 1000 ≤ m ∧ m ≤ 9999 ∧ rid = toString m) ∧
    s.rooms rid = none ∧
    s'.rooms rid = some { id := rid, players := [], created_at := now,
                          last_activity := now } ∧
    (∀ q, q ≠ rid → s'.rooms q = s.rooms q) ∧
    s'.player_to_room = s.player_to_room := by
  intro oracle
  induction oracle with
  | nil => intro s rid s' h; simp [SessionState.create_room] at h
  | cons n rest ih =>
    intro s rid s' h
    rw [SessionState.create_room] at h
    by_cases hc : (s.rooms (genRoomId n)).isSome
    · rw [if_pos hc] at h
      exact ih h
    · rw [if_neg hc] at h
      obtain ⟨hrid, hs'⟩ := Prod.mk.injEq .. ▸ Option.some.injEq .. ▸ h
      subst hrid
      refine ⟨⟨1000 + n % 9000, Nat.le_add_right _ _, ?_, rfl⟩, ?_, ?_, ?_, ?_⟩
      · have : n % 9000 < 9000 := Nat.mod_lt _ (by omega)
        omega
      · exact Option.not_isSome_iff_eq_none.mp hc
      · rw [← hs']
        exact setMap_self ..
      · intro q hq
        rw [← hs']
        exact setMap_ne _ _ _ hq
      · rw [← hs']



/-- The room record after a successful join. -/
def joinedRoom (room : GameRoom) (now : Nat) (pid : String) : GameRoom :=
  { room with players := room.players ++ [pid], last_activity := now }

/-- The room record after a leave. -/
def leftRoom (room : GameRoom) (now : Nat) (pid : String) : GameRoom :=
  { room with players := room.players.filter (fun q => q != pid),
              last_activity := now }

theorem join_room_adds_eq {s : SessionState} {now : Nat} {rid pid : String}
    {room : GameRoom} (h : s.rooms rid = some room) (hm : pid ∉ room.players) :
    s.join_room now rid pid =
      (SessionState.mk (setMap s.rooms rid (some (joinedRoom room now pid)))
        (setMap s.player_to_room pid (some rid)), true) := by
  simp [SessionState.join_room, h, hm, joinedRoom]

theorem leave_room_no_mapping {s : SessionState} {now : Nat} {pid : String}
    (h : s.player_to_room pid = none) : s.leave_room now pid = s := by
  simp [SessionState.leave_room, h]

theorem leave_room_missing_room {s : SessionState} {now : Nat} {pid rid : String}
    (h : s.player_to_room pid = some rid) (hr : s.rooms rid = none) :
    s.leave_room now pid =
      SessionState.mk s.rooms (setMap s.player_to_room pid none) := by
  simp [SessionState.leave_room, h, hr]

theorem leave_room_removes {s : SessionState} {now : Nat} {pid rid : String}
    {room : GameRoom} (h : s.player_to_room pid = some rid)
    (hr : s.rooms rid = some room) :
    s.leave_room now pid =
      SessionState.mk (setMap s.rooms rid (some (leftRoom room now pid)))
        (setMap s.player_to_room pid none) := by
  simp [SessionState.leave_room, h, hr, leftRoom]

theorem create_room_preserves {now : Nat} :
    ∀ {oracle : List Nat} {s : SessionState} {rid : String} {s' : SessionState},
    s.create_room now oracle = some (rid, s') →
    mappedConsistent s → mappedConsistent s' := by
  intro oracle s rid s' h hs
  obtain ⟨_, hfresh, _, hother, hptr⟩ := create_room_sound h
  intro p r hpr
  rw [hptr] at hpr
  obtain ⟨room, hroom, hmem⟩ := hs p r hpr
  by_cases hr : r = rid
  · rw [hr, hfresh] at hroom
    exact absurd hroom (by simp)
  · refine ⟨room, ?_, hmem⟩
    rw [hother r hr]
    exact hroom

theorem join_room_preserves {s : SessionState} {now : Nat} {rid pid : String}
    (hs : mappedConsistent s) : mappedConsistent (s.join_room now rid pid).1 := by
  cases hr : s.rooms rid with
  | none => rw [join_room_not_found hr]; exact hs
  | some room =>
    by_cases hm : pid ∈ room.players
    · rw [join_room_already hr hm]; exact hs
    · rw [join_room_adds_eq hr hm]
      intro p r hpr
      simp only [setMap] at hpr
      by_cases hp : p = pid
      · rw [if_pos hp] at hpr
        obtain rfl : rid = r := Option.some.inj hpr
        refine ⟨joinedRoom room now pid, setMap_self .., ?_⟩
        simp [joinedRoom, hp]
      · rw [if_neg hp] at hpr
        obtain ⟨room₀, hroom₀, hmem₀⟩ := hs p r hpr
        by_cases hrr : r = rid
        · subst hrr
          rw [hroom₀] at hr
          obtain rfl : room = room₀ := Option.some.inj hr.symm
          refine ⟨joinedRoom room now pid, setMap_self .., ?_⟩
          simp only [joinedRoom, List.mem_append]
          exact Or.inl hmem₀
        · refine ⟨room₀, ?_, hmem₀⟩
          show setMap s.rooms rid _ r = _
          rw [setMap_ne _ _ _ hrr]
          exact hroom₀

theorem leave_room_preserves {s : SessionState} {now : Nat} {pid : String}
    (hs : mappedConsistent s) : mappedConsistent (s.leave_room now pid) := by
  cases hmap : s.player_to_room pid with
  | none => rw [leave_room_no_mapping hmap]; exact hs
  | some rid =>
    cases hr : s.rooms rid with
    | none =>
      rw [leave_room_missing_room hmap hr]
      intro p r hpr
      simp only [setMap] at hpr
      by_cases hp : p = pid
      · rw [if_pos hp] at hpr; exact absurd hpr (by simp)
      · rw [if_neg hp] at hpr
        exact hs p r hpr
    | some room =>
      rw [leave_room_removes hmap hr]
      intro p r hpr
      simp only [setMap] at hpr
      by_cases hp : p = pid
      · rw [if_pos hp] at hpr; exact absurd hpr (by simp)
      · rw [if_neg hp] at hpr
        obtain ⟨room₀, hroom₀, hmem₀⟩ := hs p r hpr
        by_cases hrr : r = rid
        · subst hrr
          rw [hroom₀] at hr
          obtain rfl : room = room₀ := Option.some.inj hr.symm
          refine ⟨leftRoom room now pid, setMap_self .., ?_⟩
          simp only [leftRoom, List.mem_filter]
          refine ⟨hmem₀, ?_⟩
          simpa using hp
        · refine ⟨room₀, ?_, hmem₀⟩
          show setMap s.rooms rid _ r = _
          rw [setMap_ne _ _ _ hrr]
          exact hroom₀

theorem applyOp_preserves {s : SessionState} (op : Op)
    (hs : mappedConsistent s) : mappedConsistent (applyOp s op) := by
  cases op with
  | create now oracle =>
    rw [applyOp]
    cases hc : s.create_room now oracle with
    | none => exact hs
    | some pr =>
      obtain ⟨rid, s'⟩ := pr
      exact create_room_preserves hc hs
  | join now rid pid => exact join_room_preserves hs
  | leave now pid => exact leave_room_preserves hs

theorem runOps_preserves {ops : List Op} :
    ∀ {s : SessionState}, mappedConsistent s → mappedConsistent (runOps s ops) := by
  induction ops with
  | nil => intro s hs; exact hs
  | cons op rest ih =>
    intro s hs
    exact ih (applyOp_preserves op hs)

theorem new_mappedConsistent : mappedConsistent SessionState.new := by
  intro p r hpr
  simp [SessionState.new] at hpr

/-! ### Example reachable states used by witnesses and counterexamples -/

/-- A registry holding room "1000" with single member "p": the result of one
`create_room` (draw 0) followed by `join_room("1000", "p")`. -/
def exRoomP : SessionState :=
  runOps SessionState.new [Op.create 0 [0], Op.join 0 "1000" "p"]

/-- A registry holding room "1000" with members "a", "b", "c". -/
def exRoomABC : SessionState :=
  runOps SessionState.new
    [Op.create 0 [0], Op.join 0 "1000" "a", Op.join 0 "1000" "b", Op.join 0 "1000" "c"]

/-! ### C1 -/

/-- C1, counterexample: starting from the empty registry, `create_room` twice
(rooms "1000" and "1001"), then `join_room("1000", "p")` followed by
`join_room("1001", "p")` leaves "p" a member of both rooms' player lists
while `player_to_room` points at "1001" — the claimed mapping invariant
("member of the room it maps to and of no other; joining a second room never
produces a player who remains a member of two rooms") is violated by the
code. -/
theorem join_second_room_breaks_mapping_cex :
    (runOps SessionState.new [Op.create 0 [0], Op.create 0 [1],
        Op.join 0 "1000" "p", Op.join 0 "1001" "p"]).rooms "1000" =
      some (GameRoom.mk "1000" ["p"] 0 0) ∧
    (runOps SessionState.new [Op.create 0 [0], Op.create 0 [1],
        Op.join 0 "1000" "p", Op.join 0 "1001" "p"]).rooms "1001" =
      some (GameRoom.mk "1001" ["p"] 0 0) ∧
    (runOps SessionState.new [Op.create 0 [0], Op.create 0 [1],
        Op.join 0 "1000" "p", Op.join 0 "1001" "p"]).player_to_room "p" =
      some "1001" := by
  decide

/-- C1, amended: over every sequence of `create_room`/`join_room`/`leave_room`
calls starting from the empty `SessionState`, one direction of the mapping
invariant does hold: whenever `player_to_room` maps a player to a room, that
room exists and its players list contains the player.  (The converse — that
the player is a member of no other room — fails; see the counterexample.) -/
theorem mapped_player_is_member_invariant (ops : List Op) (p r : String)
    (h : (runOps SessionState.new ops).player_to_room p = some r) :
    ∃ room, (runOps SessionState.new ops).rooms r = some room ∧
      p ∈ room.players :=
  runOps_preserves new_mappedConsistent p r h

theorem mapped_player_is_member_invariant_witness :
    ∃ room,
      (runOps SessionState.new [Op.create 0 [0], Op.join 0 "1000" "p"]).rooms "1000" =
        some room ∧ "p" ∈ room.players :=
  mapped_player_is_member_invariant [Op.create 0 [0], Op.join 0 "1000" "p"]
    "p" "1000" (by decide)

/-! ### C2 -/

/-- C2, counterexample: in a registry whose room "1000" already contains
"p", `join_room("1000", "p")` returns `false`, not `true` — the code is not
"idempotent returning true" on an already-joined player as claimed. -/
theorem join_room_already_member_returns_false_cex :
    ((runOps SessionState.new [Op.create 0 [0], Op.join 0 "1000" "p"]).join_room
        1 "1000" "p").2 = false ∧
    (runOps SessionState.new [Op.create 0 [0], Op.join 0 "1000" "p"]).rooms "1000" =
      some (GameRoom.mk "1000" ["p"] 0 0) := by
  decide

/-- C2, amended: `join_room(room_id, player_id)` returns `false` when
`room_id` is not a key of the rooms map; when the room exists and
`player_id` is not already in its players list it appends `player_id`,
updates `last_activity` to the current instant, inserts the reverse mapping
`player_id → room_id`, touches no other room or mapping, and returns `true`;
and when the room exists and `player_id` is already a member it returns
`false` (not `true` as the spec claims) without inserting a duplicate and
without changing any state. -/
theorem join_room_spec (s : SessionState) (now : Nat) (rid pid : String) :
    (s.rooms rid = none → s.join_room now rid pid = (s, false)) ∧
    (∀ room, s.rooms rid = some room → pid ∈ room.players →
       s.join_room now rid pid = (s, false)) ∧
    (∀ room, s.rooms rid = some room → pid ∉ room.players →
       (s.join_room now rid pid).2 = true ∧
       (s.join_room now rid pid).1.rooms rid = some (joinedRoom room now pid) ∧
       (s.join_room now rid pid).1.player_to_room pid = some rid ∧
       (∀ q, q ≠ rid → (s.join_room now rid pid).1.rooms q = s.rooms q) ∧
       (∀ q, q ≠ pid →
          (s.join_room now rid pid).1.player_to_room q = s.player_to_room q)) := by
  refine ⟨fun h => join_room_not_found h,
          fun room h hm => join_room_already h hm,
          fun room h hm => ?_⟩
  rw [join_room_adds_eq h hm]
  refine ⟨rfl, setMap_self .., setMap_self .., ?_, ?_⟩
  · intro q hq
    exact setMap_ne _ _ _ hq
  · intro q hq
    exact setMap_ne _ _ _ hq

theorem join_room_spec_witness :
    SessionState.new.join_room 0 "1000" "p" = (SessionState.new, false) ∧
    exRoomP.join_room 1 "1000" "p" = (exRoomP, false) ∧
    (exRoomP.join_room 1 "1000" "q").2 = true ∧
    (exRoomP.join_room 1 "1000" "q").1.player_to_room "q" = some "1000" := by
  refine ⟨(join_room_spec SessionState.new 0 "1000" "p").1 (by decide),
          (join_room_spec exRoomP 1 "1000" "p").2.1
            (GameRoom.mk "1000" ["p"] 0 0) (by decide) (by decide),
          ((join_room_spec exRoomP 1 "1000" "q").2.2
            (GameRoom.mk "1000" ["p"] 0 0) (by decide) (by decide)).1,
          ((join_room_spec exRoomP 1 "1000" "q").2.2
            (GameRoom.mk "1000" ["p"] 0 0) (by decide) (by decide)).2.2.1⟩

/-! ### C3 -/

/-- C3 shows a code bug: on the `Closing → Closed` transition (connection
close, or heartbeat timeout — here a tick at instant 20 with last liveness
at 0, well past `CLIENT_TIMEOUT`), `GameSession::stopped` releases nothing:
the shared registry and the connections map are returned unchanged, the
stopped player "a" is still listed in room "1000" and still mapped by
`player_to_room`, and a later broadcast by "b" still resolves "a"'s delivery
handle — contradicting the claim that the entry is removed and
`leave_room` is called. -/
theorem stopped_no_cleanup_bug :
    GameSession.heartbeat_timed_out 20 0 = true ∧
    GameSession.stopped_cleanup exRoomABC ["a", "b", "c"] =
      (exRoomABC, ["a", "b", "c"]) ∧
    exRoomABC.rooms "1000" = some (GameRoom.mk "1000" ["a", "b", "c"] 0 0) ∧
    exRoomABC.player_to_room "a" = some "1000" ∧
    ("a", GameMessage.Chat "b" "hi") ∈
      GameSession.broadcast_to_room "b" ["a", "b", "c"] exRoomABC "1000"
        (GameMessage.Chat "b" "hi") := by
  exact ⟨by decide, rfl, by decide, by decide, by decide⟩

/-! ### C4 -/

/-- C4 shows a code bug: handling an inbound `Leave` message does not remove
the sender from its room.  With "p" a member of room "1000", dispatching
`Leave {player_id: "p"}` on "p"'s session returns the registry unchanged
(no reply, no broadcast), and "p" is still a member of "1000" and still a
key of `player_to_room` — `SessionState::leave_room` exists but the `Leave`
arm only logs and never calls it. -/
theorem leave_message_no_effect_bug :
    GameSession.handle_game_message "p" 1 [] ["p"] exRoomP (GameMessage.Leave "p") =
      some (DispatchResult.mk exRoomP [] []) ∧
    exRoomP.rooms "1000" = some (GameRoom.mk "1000" ["p"] 0 0) ∧
    exRoomP.player_to_room "p" = some "1000" := by
  exact ⟨rfl, by decide, by decide⟩

/-! ### C5 -/

/-- C5, counterexample: with room "1000" = {"a","b","c"} all connected,
handling `Chat` from "a" produces no deliveries at all — member "b" (a
member of the sender's room, distinct from the sender) receives nothing, so
the chat is not fanned out to the room via the broadcast router as
claimed. -/
theorem chat_not_broadcast_cex :
    (GameSession.handle_game_message "a" 1 [] ["a", "b", "c"] exRoomABC
        (GameMessage.Chat "a" "hi")).map (fun r => r.deliveries) = some [] ∧
    exRoomABC.rooms "1000" = some (GameRoom.mk "1000" ["a", "b", "c"] 0 0) := by
  decide

/-- C5, amended: handling an inbound `Chat` message echoes the chat message
back to the sender's own channel only; the registry is untouched and no
message is pushed to any other member of the room (the `Chat` arm never
invokes the broadcast router). -/
theorem chat_echoes_to_sender_only (sid : String) (now : Nat) (oracle : List Nat)
    (conns : List String) (s : SessionState) (pid text : String) :
    GameSession.handle_game_message sid now oracle conns s (GameMessage.Chat pid text) =
      some (DispatchResult.mk s [OutMsg.plain (GameMessage.Chat pid text)] []) :=
  rfl

/-! ### C6 -/

theorem handle_player_update_eq (sid : String) (now : Nat) (oracle : List Nat)
    (conns : List String) (s : SessionState) (pid : String) (pos : Position)
    (act : Option String) :
    GameSession.handle_game_message sid now oracle conns s
        (GameMessage.PlayerUpdate pid pos act) =
      match s.get_player_room sid with
      | some room_id =>
        some (DispatchResult.mk s []
          (GameSession.broadcast_to_room sid conns s room_id
            (GameMessage.PlayerUpdate sid pos act)))
      | none => some (DispatchResult.mk s [] []) :=
  rfl

theorem broadcast_members {sid : String} {conns : List String} {s : SessionState}
    {rid : String} {room : GameRoom} (h : s.rooms rid = some room)
    (msg : GameMessage) :
    GameSession.broadcast_to_room sid conns s rid msg =
      (room.players.filter (fun p => p != sid && conns.contains p)).map
        (fun p => (p, msg)) := by
  simp [GameSession.broadcast_to_room, h]

theorem map_fst_pair (l : List String) (msg : GameMessage) :
    (l.map (fun p => (p, msg))).map Prod.fst = l := by
  induction l with
  | nil => rfl
  | cons a t ih => simp only [List.map_cons, ih]

/-- C6: the session substitutes its own id for the `player_id` claimed in a
`PlayerUpdate` payload; if `room_of(sender)` is `none` the update is dropped
with no reply and no state change; otherwise the rewritten update is handed
to the broadcast router, every delivered copy carries the sender's true id,
the sender itself never receives a copy, and each other member of the room
with a registered connection handle receives it exactly once. -/
theorem player_update_rewrite_and_broadcast (sid : String) (now : Nat)
    (oracle : List Nat) (conns : List String) (s : SessionState)
    (pid : String) (pos : Position) (act : Option String) :
    (s.get_player_room sid = none →
       GameSession.handle_game_message sid now oracle conns s
           (GameMessage.PlayerUpdate pid pos act) =
         some (DispatchResult.mk s [] [])) ∧
    (∀ rid room, s.get_player_room sid = some rid → s.rooms rid = some room →
       room.players.Nodup →
       GameSession.handle_game_message sid now oracle conns s
           (GameMessage.PlayerUpdate pid pos act) =
         some (DispatchResult.mk s []
           (GameSession.broadcast_to_room sid conns s rid
             (GameMessage.PlayerUpdate sid pos act))) ∧
       (∀ d ∈ GameSession.broadcast_to_room sid conns s rid
           (GameMessage.PlayerUpdate sid pos act),
          d.2 = GameMessage.PlayerUpdate sid pos act) ∧
       ((GameSession.broadcast_to_room sid conns s rid
           (GameMessage.PlayerUpdate sid pos act)).map Prod.fst).count sid = 0 ∧
       (∀ m ∈ room.players, m ≠ sid → m ∈ conns →
          ((GameSession.broadcast_to_room sid conns s rid
              (GameMessage.PlayerUpdate sid pos act)).map Prod.fst).count m = 1)) := by
  constructor
  · intro h
    rw [handle_player_update_eq, h]
  · intro rid room hrid hroom hnd
    refine ⟨by rw [handle_player_update_eq, hrid], ?_, ?_, ?_⟩
    · intro d hd
      rw [broadcast_members hroom] at hd
      obtain ⟨p, _, hp⟩ := List.mem_map.mp hd
      rw [← hp]
    · rw [broadcast_members hroom, map_fst_pair, List.count_eq_zero]
      intro hmem
      have := List.of_mem_filter hmem
      simp at this
    · intro m hm hms hmc
      rw [broadcast_members hroom, map_fst_pair,
          List.count_filter (by simp [hms, hmc])]
      exact List.count_eq_one_of_mem hnd hm

theorem player_update_rewrite_and_broadcast_witness :
    GameSession.handle_game_message "a" 0 [] [] SessionState.new
        (GameMessage.PlayerUpdate "z" (Position.mk 1 2 3 none) none) =
      some (DispatchResult.mk SessionState.new [] []) ∧
    ((GameSession.broadcast_to_room "a" ["a", "b", "c"] exRoomABC "1000"
        (GameMessage.PlayerUpdate "a" (Position.mk 1 2 3 none) none)).map
      Prod.fst).count "a" = 0 ∧
    ((GameSession.broadcast_to_room "a" ["a", "b", "c"] exRoomABC "1000"
        (GameMessage.PlayerUpdate "a" (Position.mk 1 2 3 none) none)).map
      Prod.fst).count "b" = 1 := by
  refine ⟨(player_update_rewrite_and_broadcast "a" 0 [] [] SessionState.new
            "z" (Position.mk 1 2 3 none) none).1 (by decide), ?_, ?_⟩
  · exact ((player_update_rewrite_and_broadcast "a" 0 [] ["a", "b", "c"] exRoomABC
      "z" (Position.mk 1 2 3 none) none).2 "1000"
      (GameRoom.mk "1000" ["a", "b", "c"] 0 0) (by decide) (by decide)
      (by decide)).2.2.1
  · exact ((player_update_rewrite_and_broadcast "a" 0 [] ["a", "b", "c"] exRoomABC
      "z" (Position.mk 1 2 3 none) none).2 "1000"
      (GameRoom.mk "1000" ["a", "b", "c"] 0 0) (by decide) (by decide)
      (by decide)).2.2.2 "b" (by decide) (by decide) (by decide)

/-! ### C7 -/

theorem handle_join_call (sid : String) (now : Nat) (oracle : List Nat)
    (conns : List String) (s : SessionState) (pj : Option String)
    (rid_opt : Option String) (cr : Option Bool) :
    GameSession.handle_game_message sid now oracle conns s
        (GameMessage.Join pj rid_opt cr) =
      joinDispatch sid now oracle s rid_opt cr :=
  rfl

theorem mkJoinReply_of_room {st : SessionState} {rid : String} {room : GameRoom}
    (sid : String) (h : st.rooms rid = some room) :
    mkJoinReply sid rid st =
      DispatchResult.mk st [OutMsg.joinReply sid rid room.players.length] [] := by
  simp [mkJoinReply, joinPlayersCount, h]

theorem join_room_true_spec {s : SessionState} {now : Nat} {rid pid : String}
    (h : (s.join_room now rid pid).2 = true) :
    ∃ room, s.rooms rid = some room ∧ pid ∉ room.players ∧
      (s.join_room now rid pid).1.rooms rid = some (joinedRoom room now pid) ∧
      pid ∈ (joinedRoom room now pid).players := by
  cases hr : s.rooms rid with
  | none => rw [join_room_not_found hr] at h; simp at h
  | some room =>
    by_cases hm : pid ∈ room.players
    · rw [join_room_already hr hm] at h; simp at h
    · refine ⟨room, rfl, hm, ?_, ?_⟩
      · rw [join_room_adds_eq hr hm]
        exact setMap_self ..
      · simp [joinedRoom]

theorem create_room_isSome (now : Nat) :
    ∀ {oracle : List Nat} {s : SessionState},
    (∃ n ∈ oracle, s.rooms (genRoomId n) = none) →
    (s.create_room now oracle).isSome := by
  intro oracle
  induction oracle with
  | nil => intro s h; simp at h
  | cons n rest ih =>
    intro s h
    rw [SessionState.create_room]
    by_cases hc : (s.rooms (genRoomId n)).isSome
    · rw [if_pos hc]
      apply ih
      obtain ⟨n₀, hn₀, hfresh⟩ := h
      rcases List.mem_cons.mp hn₀ with rfl | hmem
      · rw [hfresh] at hc; simp at hc
      · exact ⟨n₀, hmem, hfresh⟩
    · rw [if_neg hc]
      rfl

theorem created_and_joined {s : SessionState} {now : Nat} {oracle : List Nat}
    {nrid : String} {s1 : SessionState} (sid : String)
    (h : s.create_room now oracle = some (nrid, s1)) :
    s.rooms nrid = none ∧
    ∃ room, ((s1.join_room now nrid sid).1).rooms nrid = some room ∧
      sid ∈ room.players := by
  obtain ⟨_, hfresh, hinserted, _, _⟩ := create_room_sound h
  have hnm : sid ∉ (GameRoom.mk nrid [] now now).players := by simp
  refine ⟨hfresh, joinedRoom (GameRoom.mk nrid [] now now) now sid, ?_, ?_⟩
  · rw [join_room_adds_eq hinserted hnm]
    exact setMap_self ..
  · simp [joinedRoom]

theorem joinDispatch_flag (sid : String) (now : Nat) (oracle : List Nat)
    {s s1 : SessionState} {nrid : String} (rid_opt : Option String)
    {cr : Option Bool} (h : cr.getD false = true)
    (hc : s.create_room now oracle = some (nrid, s1)) :
    joinDispatch sid now oracle s rid_opt cr =
      some (mkJoinReply sid nrid (s1.join_room now nrid sid).1) := by
  simp [joinDispatch, h, hc]

theorem joinDispatch_existing (sid : String) (now : Nat) (oracle : List Nat)
    {s s1 : SessionState} {rrid : String} {cr : Option Bool}
    (h : cr.getD false = false) (hjr : s.join_room now rrid sid = (s1, true)) :
    joinDispatch sid now oracle s (some rrid) cr =
      some (mkJoinReply sid rrid s1) := by
  simp [joinDispatch, h, hjr]

theorem joinDispatch_fallback (sid : String) (now : Nat) (oracle : List Nat)
    {s s1 s2 : SessionState} {rrid nrid : String} {cr : Option Bool}
    (h : cr.getD false = false) (hjr : s.join_room now rrid sid = (s1, false))
    (hc : s1.create_room now oracle = some (nrid, s2)) :
    joinDispatch sid now oracle s (some rrid) cr =
      some (mkJoinReply sid nrid (s2.join_room now nrid sid).1) := by
  simp [joinDispatch, h, hjr, hc]

theorem joinDispatch_noid (sid : String) (now : Nat) (oracle : List Nat)
    {s s1 : SessionState} {nrid : String} {cr : Option Bool}
    (h : cr.getD false = false)
    (hc : s.create_room now oracle = some (nrid, s1)) :
    joinDispatch sid now oracle s none cr =
      some (mkJoinReply sid nrid (s1.join_room now nrid sid).1) := by
  simp [joinDispatch, h, hc]

/-- C7 (amended): for every inbound Join message, with `create_room: true` a
fresh room is created and joined and any supplied room id is ignored (the
dispatch result is literally independent of it); with a supplied but
nonexistent room id the dispatch falls back to creating and joining a
freshly generated room (whose id named no existing room, but which may
coincide with the requested id when the generator happens to draw it — the
original "differs from the requested one" is not guaranteed, see the
counterexample); with neither, a fresh room is created and joined.
Whenever a room id can be generated the operation succeeds, and every
successful reply is a single join reply carrying the sender's id, the
resolved room id — a room the sender is now a member of — and that room's
resulting member count; no Error reply and no broadcast ever happens. -/
theorem join_dispatch_spec (sid : String) (now : Nat) (oracle : List Nat)
    (conns : List String) (s : SessionState) (pj : Option String)
    (rid_opt : Option String) (cr : Option Bool) :
    ((∃ n ∈ oracle, s.rooms (genRoomId n) = none) →
       (GameSession.handle_game_message sid now oracle conns s
         (GameMessage.Join pj rid_opt cr)).isSome) ∧
    (∀ res, GameSession.handle_game_message sid now oracle conns s
          (GameMessage.Join pj rid_opt cr) = some res →
       ∃ final room, res.state.rooms final = some room ∧ sid ∈ room.players ∧
         res.replies = [OutMsg.joinReply sid final room.players.length] ∧
         res.deliveries = []) ∧
    (cr.getD false = true →
       GameSession.handle_game_message sid now oracle conns s
           (GameMessage.Join pj rid_opt cr) =
         GameSession.handle_game_message sid now oracle conns s
           (GameMessage.Join pj none cr)) ∧
    (∀ r, cr.getD false = false → rid_opt = some r → s.rooms r = none →
       ∀ res, GameSession.handle_game_message sid now oracle conns s
           (GameMessage.Join pj rid_opt cr) = some res →
         ∃ final cnt, res.replies = [OutMsg.joinReply sid final cnt] ∧
           s.rooms final = none) ∧
    (cr.getD false = false → rid_opt = none →
       ∀ res, GameSession.handle_game_message sid now oracle conns s
           (GameMessage.Join pj rid_opt cr) = some res →
         ∃ final cnt, res.replies = [OutMsg.joinReply sid final cnt] ∧
           s.rooms final = none) := by
  refine ⟨?_, ?_, ?_, ?_, ?_⟩
  -- (1) the operation succeeds whenever some oracle draw is fresh
  · intro hfresh
    rw [handle_join_call]
    by_cases hcr : cr.getD false
    · have h1 := create_room_isSome now hfresh
      cases hc : s.create_room now oracle with
      | none => rw [hc] at h1; simp at h1
      | some pr =>
        obtain ⟨nrid, s1⟩ := pr
        rw [joinDispatch_flag sid now oracle rid_opt hcr hc]
        rfl
    · have hcr' : cr.getD false = false := by simpa using hcr
      cases rid_opt with
      | some rrid =>
        cases hjp : s.join_room now rrid sid with
        | mk s1 b =>
          cases b with
          | true => rw [joinDispatch_existing sid now oracle hcr' hjp]; rfl
          | false =>
            have hs1 : s1 = s := by
              have h2 := join_room_false_state
                (show (s.join_room now rrid sid).2 = false by rw [hjp])
              rw [hjp] at h2
              exact h2
            have hfresh1 : ∃ n ∈ oracle, s1.rooms (genRoomId n) = none := by
              rw [hs1]; exact hfresh
            have h1 := create_room_isSome now hfresh1
            cases hc : s1.create_room now oracle with
            | none => rw [hc] at h1; simp at h1
            | some pr =>
              obtain ⟨nrid, s2⟩ := pr
              rw [joinDispatch_fallback sid now oracle hcr' hjp hc]
              rfl
      | none =>
        have h1 := create_room_isSome now hfresh
        cases hc : s.create_room now oracle with
        | none => rw [hc] at h1; simp at h1
        | some pr =>
          obtain ⟨nrid, s1⟩ := pr
          rw [joinDispatch_noid sid now oracle hcr' hc]
          rfl
  -- (2) reply shape: resolved room joined by sid, reply carries its count
  · intro res hres
    rw [handle_join_call] at hres
    by_cases hcr : cr.getD false
    · cases hc : s.create_room now oracle with
      | none => simp [joinDispatch, hcr, hc] at hres
      | some pr =>
        obtain ⟨nrid, s1⟩ := pr
        rw [joinDispatch_flag sid now oracle rid_opt hcr hc] at hres
        obtain ⟨room, hrm, hmem⟩ := (created_and_joined sid hc).2
        rw [mkJoinReply_of_room sid hrm] at hres
        obtain rfl := Option.some.inj hres
        exact ⟨nrid, room, hrm, hmem, rfl, rfl⟩
    · have hcr' : cr.getD false = false := by simpa using hcr
      cases rid_opt with
      | some rrid =>
        cases hjp : s.join_room now rrid sid with
        | mk s1 b =>
          cases b with
          | true =>
            rw [joinDispatch_existing sid now oracle hcr' hjp] at hres
            have hjr2 : (s.join_room now rrid sid).2 = true := by rw [hjp]
            obtain ⟨room, _, _, hrm, hmem⟩ := join_room_true_spec hjr2
            have hs1 : (s.join_room now rrid sid).1 = s1 := by rw [hjp]
            rw [hs1] at hrm
            rw [mkJoinReply_of_room sid hrm] at hres
            obtain rfl := Option.some.inj hres
            exact ⟨rrid, joinedRoom room now sid, hrm, hmem, rfl, rfl⟩
          | false =>
            cases hc : s1.create_room now oracle with
            | none => simp [joinDispatch, hcr', hjp, hc] at hres
            | some pr =>
              obtain ⟨nrid, s2⟩ := pr
              rw [joinDispatch_fallback sid now oracle hcr' hjp hc] at hres
              obtain ⟨room, hrm, hmem⟩ := (created_and_joined sid hc).2
              rw [mkJoinReply_of_room sid hrm] at hres
              obtain rfl := Option.some.inj hres
              exact ⟨nrid, room, hrm, hmem, rfl, rfl⟩
      | none =>
        cases hc : s.create_room now oracle with
        | none => simp [joinDispatch, hcr', hc] at hres
        | some pr =>
          obtain ⟨nrid, s1⟩ := pr
          rw [joinDispatch_noid sid now oracle hcr' hc] at hres
          obtain ⟨room, hrm, hmem⟩ := (created_and_joined sid hc).2
          rw [mkJoinReply_of_room sid hrm] at hres
          obtain rfl := Option.some.inj hres
          exact ⟨nrid, room, hrm, hmem, rfl, rfl⟩
  -- (3) create_room=true ignores any supplied room id
  · intro hcr
    rw [handle_join_call, handle_join_call]
    simp [joinDispatch, hcr]
  -- (4) requested room missing: a freshly generated room is used
  · intro r hcr hrid hmiss res hres
    subst hrid
    rw [handle_join_call] at hres
    have hjf : s.join_room now r sid = (s, false) := join_room_not_found hmiss
    cases hc : s.create_room now oracle with
    | none => simp [joinDispatch, hcr, hjf, hc] at hres
    | some pr =>
      obtain ⟨nrid, s1⟩ := pr
      rw [joinDispatch_fallback sid now oracle hcr hjf hc] at hres
      obtain ⟨hfresh, room, hrm, _⟩ := created_and_joined sid hc
      rw [mkJoinReply_of_room sid hrm] at hres
      obtain rfl := Option.some.inj hres
      exact ⟨nrid, room.players.length, rfl, hfresh⟩
  -- (5) no room id supplied: a freshly generated room is used
  · intro hcr hrid res hres
    subst hrid
    rw [handle_join_call] at hres
    cases hc : s.create_room now oracle with
    | none => simp [joinDispatch, hcr, hc] at hres
    | some pr =>
      obtain ⟨nrid, s1⟩ := pr
      rw [joinDispatch_noid sid now oracle hcr hc] at hres
      obtain ⟨hfresh, room, hrm, _⟩ := created_and_joined sid hc
      rw [mkJoinReply_of_room sid hrm] at hres
      obtain rfl := Option.some.inj hres
      exact ⟨nrid, room.players.length, rfl, hfresh⟩

/-- C7, counterexample: from an empty registry, a Join requesting the
nonexistent room "1000" (no create flag) falls back to room creation, and
the generator draw 0 yields exactly the id "1000" — the reply's room id
equals the requested one, refuting the claim that the fallback room's id
always differs from the requested id. -/
theorem join_fallback_same_id_cex :
    (GameSession.handle_game_message "p" 0 [0] [] SessionState.new
        (GameMessage.Join none (some "1000") none)).map (fun r => r.replies) =
      some [OutMsg.joinReply "p" "1000" 1] ∧
    SessionState.new.rooms "1000" = none := by
  decide

theorem join_dispatch_spec_witness :
    (∃ res, GameSession.handle_game_message "p" 0 [0] [] SessionState.new
        (GameMessage.Join none none none) = some res ∧
      ∃ final room, res.state.rooms final = some room ∧ "p" ∈ room.players ∧
        res.replies = [OutMsg.joinReply "p" final room.players.length] ∧
        res.deliveries = []) ∧
    (∃ res, GameSession.handle_game_message "p" 0 [0] [] SessionState.new
        (GameMessage.Join none (some "2000") none) = some res ∧
      ∃ final cnt, res.replies = [OutMsg.joinReply "p" final cnt] ∧
        SessionState.new.rooms final = none) ∧
    GameSession.handle_game_message "p" 0 [0] [] SessionState.new
        (GameMessage.Join none (some "9999") (some true)) =
      GameSession.handle_game_message "p" 0 [0] [] SessionState.new
        (GameMessage.Join none none (some true)) := by
  refine ⟨?_, ?_, ?_⟩
  · have hiss := (join_dispatch_spec "p" 0 [0] [] SessionState.new
      none none none).1 ⟨0, by decide, by decide⟩
    obtain ⟨res, hres⟩ := Option.isSome_iff_exists.mp hiss
    exact ⟨res, hres, (join_dispatch_spec "p" 0 [0] [] SessionState.new
      none none none).2.1 res hres⟩
  · have hiss := (join_dispatch_spec "p" 0 [0] [] SessionState.new
      none (some "2000") none).1 ⟨0, by decide, by decide⟩
    obtain ⟨res, hres⟩ := Option.isSome_iff_exists.mp hiss
    exact ⟨res, hres, (join_dispatch_spec "p" 0 [0] [] SessionState.new
      none (some "2000") none).2.2.2.1 "2000" (by decide) rfl (by decide)
      res hres⟩
  · exact (join_dispatch_spec "p" 0 [0] [] SessionState.new
      none (some "9999") (some true)).2.2.1 (by decide)

/-! ### C8 -/

theorem create_room_mono {now : Nat} {oracle : List Nat} {s s' : SessionState}
    {rid : String} (h : s.create_room now oracle = some (rid, s')) :
    ∀ q room, s.rooms q = some room → s'.rooms q = some room := by
  obtain ⟨_, hfresh, _, hother, _⟩ := create_room_sound h
  intro q room hq
  by_cases hqr : q = rid
  · rw [hqr, hfresh] at hq; exact absurd hq (by simp)
  · rw [hother q hqr]; exact hq

theorem createMany_not_mem {now : Nat} :
    ∀ {os : List (List Nat)} {s : SessionState} {rids : List String}
      {s'' : SessionState}, createMany s now os = some (rids, s'') →
    ∀ r, (s.rooms r).isSome → r ∉ rids := by
  intro os
  induction os with
  | nil =>
    intro s rids s'' h r hr
    rw [createMany] at h
    obtain ⟨rfl, rfl⟩ := Prod.mk.injEq .. ▸ Option.some.inj h
    exact List.not_mem_nil r
  | cons o os ih =>
    intro s rids s'' h r hr
    rw [createMany] at h
    split at h
    · exact absurd h (by simp)
    · rename_i rid s' heq
      split at h
      · exact absurd h (by simp)
      · rename_i rids' s''' heq'
        obtain ⟨rfl, rfl⟩ := Prod.mk.injEq .. ▸ Option.some.inj h
        intro hmem
        rcases List.mem_cons.mp hmem with rfl | hmem'
        · obtain ⟨_, hfresh, _, _, _⟩ := create_room_sound heq
          rw [hfresh] at hr
          simp at hr
        · obtain ⟨room, hroom⟩ := Option.isSome_iff_exists.mp hr
          have : (s'.rooms r).isSome := by
            rw [create_room_mono heq r room hroom]; rfl
          exact ih heq' r this hmem'

theorem createMany_ids_nodup {now : Nat} :
    ∀ {os : List (List Nat)} {s : SessionState} {rids : List String}
      {s'' : SessionState}, createMany s now os = some (rids, s'') →
    rids.Nodup := by
  intro os
  induction os with
  | nil =>
    intro s rids s'' h
    rw [createMany] at h
    obtain ⟨rfl, rfl⟩ := Prod.mk.injEq .. ▸ Option.some.inj h
    exact List.nodup_nil
  | cons o os ih =>
    intro s rids s'' h
    rw [createMany] at h
    split at h
    · exact absurd h (by simp)
    · rename_i rid s' heq
      split at h
      · exact absurd h (by simp)
      · rename_i rids' s''' heq'
        obtain ⟨rfl, rfl⟩ := Prod.mk.injEq .. ▸ Option.some.inj h
        refine List.nodup_cons.mpr ⟨?_, ih heq'⟩
        obtain ⟨_, _, hins, _, _⟩ := create_room_sound heq
        have : (s'.rooms rid).isSome := by rw [hins]; rfl
        exact createMany_not_mem heq' rid this

/-- C8: a successful `create_room` returns an id that is the decimal string
of a number in `1000..=9999` (a 4-digit numeric identifier), that named no
existing room (colliding draws are retried — see the witness, where the
first draw collides and the second is used), inserts a room with an empty
players list under that id while touching nothing else, and every sequence
of `create_room` calls yields pairwise-distinct room identifiers. -/
theorem create_room_spec_and_distinct (now : Nat) :
    (∀ oracle (s : SessionState) rid s',
       s.create_room now oracle = some (rid, s') →
       (∃ m, 1000 ≤ m ∧ m ≤ 9999 ∧ rid = toString m) ∧
       s.rooms rid = none ∧
       s'.rooms rid = some (GameRoom.mk rid [] now now) ∧
       (∀ q, q ≠ rid → s'.rooms q = s.rooms q) ∧
       s'.player_to_room = s.player_to_room) ∧
    (∀ os (s : SessionState) rids,
       (createMany s now os).map Prod.fst = some rids → rids.Nodup) := by
  refine ⟨fun oracle s rid s' h => create_room_sound h, ?_⟩
  intro os s rids h
  obtain ⟨⟨rids', s''⟩, hsome, hmap⟩ := Option.map_eq_some'.mp h
  obtain rfl : rids' = rids := hmap
  exact createMany_ids_nodup hsome

theorem create_room_spec_and_distinct_witness :
    ((∃ m, 1000 ≤ m ∧ m ≤ 9999 ∧ "1005" = toString m) ∧
     exRoomP.rooms "1005" = none) ∧
    List.Nodup ["1000", "1001"] := by
  have h1 : exRoomP.create_room 0 [0, 5] =
      some ("1005", SessionState.mk
        (setMap exRoomP.rooms "1005" (some (GameRoom.mk "1005" [] 0 0)))
        exRoomP.player_to_room) := by
    rfl
  obtain ⟨hm, hfresh, _, _, _⟩ :=
    (create_room_spec_and_distinct 0).1 [0, 5] exRoomP "1005" _ h1
  refine ⟨⟨hm, hfresh⟩, ?_⟩
  exact (create_room_spec_and_distinct 0).2 [[0], [0, 1]] SessionState.new
    ["1000", "1001"] (by decide)

/-! ### C9 -/

/-- C9: an inbound text frame whose body fails to decode as a `GameMessage`
is answered with an `Error` reply whose payload embeds the decoder's
human-readable description; the registry is unchanged, nothing is pushed to
any other session, and the connection is not stopped. -/
theorem malformed_text_error_reply (sid : String) (now : Nat)
    (oracle : List Nat) (conns : List String) (s : SessionState) (e : String) :
    GameSession.handleTextFrame sid now oracle conns s (Except.error e) =
      some (DispatchResult.mk s
        [OutMsg.plain (GameMessage.Error ("Invalid message format: " ++ e))] [],
        false) :=
  rfl

/-! ### C10 -/

/-- Whether a message is a Join request. -/
def GameMessage.isJoin : GameMessage → Bool
  | .Join _ _ _ => true
  | _ => false

/-- C10: dispatching any inbound `GameMessage` other than a `Join` leaves
the shared `SessionState` — both the rooms map and the player-to-room map —
exactly as it was (and always succeeds). -/
theorem non_join_leaves_state_unchanged (sid : String) (now : Nat)
    (oracle : List Nat) (conns : List String) (s : SessionState)
    (msg : GameMessage) (h : msg.isJoin = false) :
    (GameSession.handle_game_message sid now oracle conns s msg).map
      (fun r => r.state) = some s := by
  cases msg with
  | Join a b c => simp [GameMessage.isJoin] at h
  | PlayerUpdate a p act =>
    rw [handle_player_update_eq]
    cases hr : s.get_player_room sid with
    | some rid => rfl
    | none => rfl
  | Leave a => rfl
  | Chat a b => rfl
  | WorldUpdate es => rfl
  | Error m => rfl
  | Ping t => rfl
  | Pong t => rfl

theorem non_join_leaves_state_unchanged_witness :
    (GameSession.handle_game_message "a" 0 [] [] SessionState.new
        (GameMessage.Chat "a" "x")).map (fun r => r.state) =
      some SessionState.new :=
  non_join_leaves_state_unchanged "a" 0 [] [] SessionState.new
    (GameMessage.Chat "a" "x") (by decide)
